import Mathlib

set_option maxHeartbeats 1000000

/-!
Verification development for the Pragyanai resume/job-portal application.

The central piece of logic is the fit-score extraction pipeline in the admin
dashboard of `Pragyanaiapp.py` (lines 947-997): the raw LLM fit-evaluation
response is scanned with three ordered regular-expression passes
(`re.search`), producing an overall score and three section percentages, with
`'N/A'` sentinels for missing fields and `'Error'` sentinels when the
pipeline throws.  We embed these scans as deterministic functions over
`List Char` and prove the spec's testable properties about them.

On the faithfulness of the regex embedding: each pattern used by the code is
a literal followed by `\s*`, `(\d+)` and further literals (`/10`, `%`), or,
for the section block, `--- Section Match Analysis ---\s*(.*?)\s*Strengths/Matches:`
under `re.DOTALL`.  For such patterns Python's backtracking search is
deterministic and equivalent to the greedy scans below:

* `lit\s*(\d+)\s*lit2`: after the literal, a shorter-than-maximal `\s*` run
  leaves a whitespace character where `\d` must match, and a
  shorter-than-maximal `(\d+)` run leaves a digit where `\s*` can only match
  the empty string and `lit2` starts with a non-digit (`/` or `%`); hence the
  only candidate is: maximal whitespace run, then maximal digit run (at least
  one digit), then maximal whitespace run, then the literal.
* the block pattern: a match starting at a marker occurrence exists iff the
  terminator literal occurs at or after the end of the marker (since `.*?`
  may consume anything under DOTALL and `\s*` may be empty); the leading
  greedy `\s*` always takes the maximal whitespace run (the terminator starts
  with the non-whitespace `S`, so no completion is lost by taking it all),
  and the non-greedy `.*?` then stops at the least position from which a
  whitespace run followed by the terminator literal begins.
* `re.search` itself tries successive start positions left to right, so the
  overall match is anchored at the leftmost occurrence of the leading literal
  from which the rest of the pattern completes.

Character classes (`\s`, `\d`, `re.IGNORECASE` case folding, `str.strip`)
are modelled over the ASCII range, which covers every literal the program's
prompts and sentinels use.
-/

/-- ASCII model of the regex class `\d`. -/
def isDigitC (c : Char) : Bool := decide (48 ≤ c.toNat ∧ c.toNat ≤ 57)

/-- ASCII model of the regex class `\s` and of the `str.strip` whitespace set. -/
def isSpaceC (c : Char) : Bool :=
  decide (c.toNat = 32 ∨ c.toNat = 9 ∨ c.toNat = 10 ∨ c.toNat = 13 ∨
    c.toNat = 11 ∨ c.toNat = 12)

/-- ASCII lower-casing, modelling the case folding of `re.IGNORECASE`. -/
def lowerC (c : Char) : Char :=
  if 65 ≤ c.toNat ∧ c.toNat ≤ 90 then Char.ofNat (c.toNat + 32) else c

/-- A nonempty, all-digit string: the shape of every captured `(\d+)` group. -/
def isDigits (v : List Char) : Bool := !v.isEmpty && v.all isDigitC

/-- Match a literal pattern at the start of `s` (case-sensitively) and return
the remainder, or `none`. -/
def stripPrefixC : List Char → List Char → Option (List Char)
  | [], s => some s
  | _ :: _, [] => none
  | p :: ps, c :: cs => if p == c then stripPrefixC ps cs else none

/-- Match a literal pattern at the start of `s` under `re.IGNORECASE` and
return the remainder, or `none`. -/
def stripPrefixCI : List Char → List Char → Option (List Char)
  | [], s => some s
  | _ :: _, [] => none
  | p :: ps, c :: cs => if lowerC p == lowerC c then stripPrefixCI ps cs else none

/-- Case-sensitive literal prefix test. -/
def isPrefixC (p s : List Char) : Bool := (stripPrefixC p s).isSome

-- Literals appearing in the extraction patterns of the admin dashboard
-- (Pragyanaiapp.py lines 952-970).
def scoreLit : List Char := "Overall Fit Score:".data
def marker : List Char := "--- Section Match Analysis ---".data
def strengthsLit : List Char := "Strengths/Matches:".data
def skillsLab : List Char := "Skills Match:".data
def expLab : List Char := "Experience Match:".data
def eduLab : List Char := "Education Match:".data
def nA : List Char := "N/A".data
def errS : List Char := "Error".data

/-- The deterministic tail of `Overall Fit Score:\s*(\d+)\s*/10` after its
leading literal: maximal `\s*` run, maximal nonempty digit run (the capture),
maximal `\s*` run, then the literal `/10`. -/
def scoreTail? (s : List Char) : Option (List Char) :=
  let s1 := s.dropWhile isSpaceC
  let ds := s1.takeWhile isDigitC
  if ds.isEmpty then none
  else if isPrefixC "/10".data ((s1.dropWhile isDigitC).dropWhile isSpaceC) then some ds
  else none

/-- `re.search(r'Overall Fit Score:\s*(\d+)\s*/10', s, re.IGNORECASE)`,
returning the captured digit group (Pragyanaiapp.py line 952). -/
def searchScore : List Char → Option (List Char)
  | [] => none
  | s@(_ :: t) =>
    match stripPrefixCI scoreLit s with
    | some rest =>
      match scoreTail? rest with
      | some g => some g
      | none => searchScore t
    | none => searchScore t

/-- After the marker and its maximal leading whitespace run, find the least
position from which a whitespace run followed by `Strengths/Matches:` starts;
return the block text before that position (the non-greedy `(.*?)` capture of
the pattern on Pragyanaiapp.py lines 953-956). -/
def findBlockEnd : List Char → Option (List Char)
  | [] => none
  | s@(c :: t) =>
    if isPrefixC strengthsLit (s.dropWhile isSpaceC) then some []
    else
      match findBlockEnd t with
      | some g => some (c :: g)
      | none => none

/-- `re.search(r'--- Section Match Analysis ---\s*(.*?)\s*Strengths/Matches:', s, re.DOTALL)`,
returning the captured block (Pragyanaiapp.py lines 953-956). -/
def sectionBlock? : List Char → Option (List Char)
  | [] => none
  | s@(_ :: t) =>
    match stripPrefixC marker s with
    | some rest =>
      match findBlockEnd (rest.dropWhile isSpaceC) with
      | some g => some g
      | none => sectionBlock? t
    | none => sectionBlock? t

/-- The deterministic tail of `lab:\s*(\d+)%` after its leading literal. -/
def percentTail? (s : List Char) : Option (List Char) :=
  let s1 := s.dropWhile isSpaceC
  let ds := s1.takeWhile isDigitC
  if ds.isEmpty then none
  else if isPrefixC ['%'] (s1.dropWhile isDigitC) then some ds
  else none

/-- `re.search(r'<lab>\s*(\d+)%', s, re.IGNORECASE)` for a label literal,
returning the captured digit group (Pragyanaiapp.py lines 964-966). -/
def searchLabeledPercent (lab : List Char) : List Char → Option (List Char)
  | [] => none
  | s@(_ :: t) =>
    match stripPrefixCI lab s with
    | some rest =>
      match percentTail? rest with
      | some g => some g
      | none => searchLabeledPercent lab t
    | none => searchLabeledPercent lab t

/-- The four extracted fields of a match result. -/
structure FitScores where
  overall_score : List Char
  skills_percent : List Char
  experience_percent : List Char
  education_percent : List Char
deriving DecidableEq, Repr

/-- The enhanced extraction logic of the admin dashboard
(Pragyanaiapp.py lines 952-973): overall score and section block are searched
independently; the three percentages are searched only inside the captured
block, each defaulting to `'N/A'` on its own. -/
def extractFitScores (fit_output : List Char) : FitScores :=
  let overall := (searchScore fit_output).getD nA
  match sectionBlock? fit_output with
  | some section_text =>
    ⟨overall,
     (searchLabeledPercent skillsLab section_text).getD nA,
     (searchLabeledPercent expLab section_text).getD nA,
     (searchLabeledPercent eduLab section_text).getD nA⟩
  | none => ⟨overall, nA, nA, nA⟩

/-- One persisted match-result item (`result_item` / `error_item`,
Pragyanaiapp.py lines 975-996). -/
structure MatchItem where
  resume_name : List Char
  jd_name : List Char
  overall_score : List Char
  skills_percent : List Char
  experience_percent : List Char
  education_percent : List Char
  full_analysis : List Char
deriving DecidableEq, Repr

/-- One iteration of the per-(resume, JD) analysis loop
(Pragyanaiapp.py lines 943-996).  The `try` block wraps the
`evaluate_jd_fit` call and the pure extraction; the LLM call is the fallible
step and is modelled by an `Except` input.  The `except` branch builds the
all-`'Error'` item. -/
def runMatchStep (resume_name jd_name : List Char)
    (fitOutcome : Except (List Char) (List Char)) : MatchItem :=
  match fitOutcome with
  | .ok fit_output =>
    let f := extractFitScores fit_output
    ⟨resume_name, jd_name, f.overall_score, f.skills_percent,
      f.experience_percent, f.education_percent, fit_output⟩
  | .error e =>
    ⟨resume_name, jd_name, errS, errS, errS, errS,
      "Error running analysis: ".data ++ e⟩

/-- A match item of the candidate dashboard's per-(resume, JD) loop
(pragyanai-jobportal/candidate_dashboard.py lines 890-905), where the three
percent fields are dictionary keys that an item may simply not carry:
`none` models an absent key. -/
structure CandMatchItem where
  jd_name : List Char
  overall_score : List Char
  numeric_score : Int
  skills_percent : Option (List Char)
  experience_percent : Option (List Char)
  education_percent : Option (List Char)
  full_analysis : List Char
deriving DecidableEq, Repr

/-- The item appended by the `except Exception` branch of the candidate
dashboard's analysis loop (candidate_dashboard.py line 905):
`{"jd_name": jd_name, "overall_score": "Error", "numeric_score": -1,
"full_analysis": f"Error running analysis: {e}..."}` — the three percent
keys are not part of the dictionary. -/
def candidate_error_item (jd_name e : List Char) : CandMatchItem :=
  ⟨jd_name, errS, -1, none, none, none, "Error running analysis: ".data ++ e⟩

/-- How the candidate results table and detailed reports render a percent
field: `item.get("..._percent", "N/A")` (candidate_dashboard.py lines
933-935 and 944) — an absent key is displayed as the `'N/A'` sentinel. -/
def candDisplayPercent (o : Option (List Char)) : List Char := o.getD nA

/-- The literal fit-evaluation response template of spec section 6 with bare
digit values substituted for the score and percentage placeholders and an
arbitrary continuation after the `Strengths/Matches:` header. -/
def fitTemplate (a b c d tail : List Char) : List Char :=
  "Overall Fit Score: ".data ++ a ++ "/10".data ++ "\n\n".data ++
  "--- Section Match Analysis ---".data ++ "\n".data ++
  "Skills Match: ".data ++ b ++ "%\nExperience Match: ".data ++ c ++
  "%\nEducation Match: ".data ++ d ++ "%".data ++
  "\n\nStrengths/Matches:\n".data ++ tail

/-- The section-6 template with the `Education Match` line absent. -/
def fitTemplateNoEdu (a b c tail : List Char) : List Char :=
  "Overall Fit Score: ".data ++ a ++ "/10".data ++ "\n\n".data ++
  "--- Section Match Analysis ---".data ++ "\n".data ++
  "Skills Match: ".data ++ b ++ "%\nExperience Match: ".data ++ c ++
  "%".data ++ "\n\nStrengths/Matches:\n".data ++ tail

/-- The section-6 template with the `Experience Match` line absent. -/
def fitTemplateNoExp (a b c tail : List Char) : List Char :=
  "Overall Fit Score: ".data ++ a ++ "/10".data ++ "\n\n".data ++
  "--- Section Match Analysis ---".data ++ "\n".data ++
  "Skills Match: ".data ++ b ++ "%\nEducation Match: ".data ++ c ++
  "%".data ++ "\n\nStrengths/Matches:\n".data ++ tail

/-- The section-6 template with the `Skills Match` line absent. -/
def fitTemplateNoSkills (a b c tail : List Char) : List Char :=
  "Overall Fit Score: ".data ++ a ++ "/10".data ++ "\n\n".data ++
  "--- Section Match Analysis ---".data ++ "\n".data ++
  "Experience Match: ".data ++ b ++ "%\nEducation Match: ".data ++ c ++
  "%".data ++ "\n\nStrengths/Matches:\n".data ++ tail

/-- Python `str.lstrip()` over the ASCII whitespace set. -/
def lstripC (s : List Char) : List Char := s.dropWhile isSpaceC

/-- Python `str.rstrip()` over the ASCII whitespace set. -/
def rstripC (s : List Char) : List Char := (s.reverse.dropWhile isSpaceC).reverse

/-- Python `str.strip()` over the ASCII whitespace set. -/
def pstrip (s : List Char) : List Char := rstripC (lstripC s)

/-- Python `str.endswith` for a literal. -/
def isSuffixC (p s : List Char) : Bool := isPrefixC p.reverse s.reverse

/-- Index of the first occurrence of a character, if any. -/
def findIdxC (c : Char) : List Char → Option Nat
  | [] => none
  | x :: xs => if x == c then some 0 else (findIdxC c xs).map (· + 1)

/-- Python `str.find` for a single character: first index, or `-1`. -/
def pyFind (c : Char) (s : List Char) : Int :=
  (findIdxC c s).elim (-1) (fun n => (n : Int))

/-- Python `str.rfind` for a single character: last index, or `-1`. -/
def pyRFind (c : Char) (s : List Char) : Int :=
  (findIdxC c s.reverse).elim (-1) (fun k => (s.length : Int) - 1 - (k : Int))

/-- The brace-slicing step of `parse_with_llm` (Pragyanaiapp.py lines 368-372):
`json_start = find('\x7b')`, `json_end = rfind('\x7d') + 1`, and the substring is
taken only when both indices are found and the slice is nonempty. -/
def sliceStep (s : List Char) : List Char :=
  let js := pyFind '{' s
  let je := pyRFind '}' s + 1
  if js ≠ -1 ∧ je ≠ -1 ∧ je > js then (s.drop js.toNat).take (je.toNat - js.toNat) else s

/-- The JSON-recovery step of `parse_with_llm` (Pragyanaiapp.py lines 361-374)
applied to the raw LLM response: the response is stripped (line 361), a
leading ```` ```json ```` fence and a trailing ```` ``` ```` fence are
removed if present, the remainder is stripped again, and the substring from
the first `'\x7b'` to the last `'\x7d'` is selected for `json.loads`. -/
def recoverJson (response : List Char) : List Char :=
  let content := pstrip response
  let s1 := if isPrefixC "```json".data content then content.drop 7 else content
  let s2 := if isSuffixC "```".data s1 then s1.take (s1.length - 3) else s1
  sliceStep (pstrip s2)

/-- A response text decomposes into a brace-free prefix, a brace-delimited
core, and a close-brace-free suffix: the invariant each step of the JSON
recovery preserves, pinning the first `'\x7b'` and last `'\x7d'` to the core. -/
def BraceShape (s mid : List Char) : Prop :=
  ∃ A B, s = A ++ ('{' :: mid ++ ['}']) ++ B ∧
    (∀ ch ∈ A, (ch == '{') = false) ∧ (∀ ch ∈ B, (ch == '}') = false)

/-- The file kinds produced by `get_file_type` plus the defensive
else-branch of `extract_content`. -/
inductive FileType
  | pdf
  | docx
  | txt
  | unsupported
deriving DecidableEq, Repr

/-- How the filesystem and the extraction libraries behave for one path:
the per-page texts pdfplumber yields (`extract_text` may return `None`),
the paragraph texts python-docx yields, the text of the file read as UTF-8,
each or any of which may instead raise (modelled by `Except.error`). -/
structure FileBehavior where
  pdfRead : Except (List Char) (List (Option (List Char)))
  docxRead : Except (List Char) (List (List Char))
  txtRead : Except (List Char) (List Char)

def fatalMsg (e : List Char) : List Char :=
  "Fatal Extraction Error: Failed to read file content. Error details: ".data ++ e

def pdfEmptyMsg : List Char :=
  "Error: PDF extraction failed. The file might be a scanned image without searchable text or is empty.".data

def docxEmptyMsg : List Char :=
  "Error: DOCX content extraction failed. The file appears to be empty.".data

def unsupportedMsg : List Char := "Error: Unsupported file type.".data

/-- The PDF page loop of `extract_content`: append each truthy page text
followed by a newline (`if page_text: text += page_text + '\n'`). -/
def pdfConcat (pages : List (Option (List Char))) : List Char :=
  pages.foldl
    (fun acc p =>
      match p with
      | some t => if t.isEmpty then acc else acc ++ t ++ ['\n']
      | none => acc)
    []

/-- `extract_content(file_type, file_path)` of Pragyanaiapp.py (lines
304-333).  The whole body is wrapped in `try/except Exception`, so any
library or I/O failure becomes the `Fatal Extraction Error:` string; an
empty or whitespace-only PDF/DOCX concatenation becomes the `Error:`
sentinel. -/
def extract_content (ft : FileType) (fb : FileBehavior) : List Char :=
  match ft with
  | .pdf =>
    match fb.pdfRead with
    | .error e => fatalMsg e
    | .ok pages =>
      let text := pdfConcat pages
      if (pstrip text).isEmpty then pdfEmptyMsg else text
  | .docx =>
    match fb.docxRead with
    | .error e => fatalMsg e
    | .ok paras =>
      let text := List.intercalate ['\n'] paras
      if (pstrip text).isEmpty then docxEmptyMsg else text
  | .txt =>
    match fb.txtRead with
    | .error e => fatalMsg e
    | .ok c => c
  | .unsupported => unsupportedMsg

/-- Python `dict.get` over an association-list model of a parsed-resume
JSON object (first binding wins, like unique dict keys). -/
def pyGet {V : Type} (r : List (List Char × V)) (k : List Char) : Option V :=
  match r with
  | [] => none
  | kv :: rest => if kv.1 == k then some kv.2 else pyGet rest k

/-- The fixed prompt text of `evaluate_jd_fit` before the
`job_description` interpolation (Pragyanaiapp.py lines 466-468). -/
def fitPromptPre : List Char :=
  "Evaluate how well the following resume content matches the provided job description.\n    \n    Job Description: ".data

/-- The fixed prompt text between the `job_description` and
`resume_summary` interpolations (lines 468-471). -/
def fitPromptMid : List Char :=
  "\n    \n    Resume Sections for Analysis:\n    ".data

/-- The fixed prompt text after the `resume_summary` interpolation
(lines 471-497), containing the required response layout. -/
def fitPromptPost : List Char :=
  ("\n    \n    Provide a detailed evaluation structured as follows:\n" ++
   "    1.  **Overall Fit Score:** A score out of 10.\n" ++
   "    2.  **Section Match Percentages:** A percentage score for the match in the key sections (Skills, Experience, Education).\n" ++
   "    3.  **Strengths/Matches:** Key points where the resume aligns well with the JD.\n" ++
   "    4.  **Gaps/Areas for Improvement:** Key requirements in the JD that are missing or weak in the resume.\n" ++
   "    5.  **Overall Summary:** A concise summary of the fit.\n" ++
   "    \n    **Format the output strictly as follows:**\n" ++
   "    Overall Fit Score: [Score]/10\n    \n" ++
   "    --- Section Match Analysis ---\n" ++
   "    Skills Match: [XX]%\n    Experience Match: [YY]%\n    Education Match: [ZZ]%\n    \n" ++
   "    Strengths/Matches:\n    - Point 1\n    - Point 2\n    \n" ++
   "    Gaps/Areas for Improvement:\n    - Point 1\n    - Point 2\n    \n" ++
   "    Overall Summary: [Concise summary]\n    ").data

/-- The prompt construction of `evaluate_jd_fit` (Pragyanaiapp.py lines
456-497): `relevant_resume_data` is built from exactly the `skills`,
`experience` and `education` keys of the parsed resume (each defaulting to
`'Not found or empty'` when absent), serialized by `json.dumps(..., indent=2)`
— modelled by the external serializer argument `dumps`, which receives
exactly those three lookups — and spliced into the fixed f-string between
the JD text and the layout instructions. -/
def evaluate_jd_fit_prompt {V : Type}
    (dumps : Option V → Option V → Option V → List Char)
    (job_description : List Char) (parsed_json : List (List Char × V)) : List Char :=
  let resume_summary := dumps (pyGet parsed_json "skills".data)
    (pyGet parsed_json "experience".data) (pyGet parsed_json "education".data)
  fitPromptPre ++ job_description ++ fitPromptMid ++ resume_summary ++ fitPromptPost

/-- A stored resume document: its natural key `name`, the optional approval
`status` field, the bookkeeping timestamps `save_resume` maintains, and the
remaining parsed payload, opaque here. -/
structure ResumeDoc where
  name : List Char
  status : Option (List Char)
  updated_at : Nat
  created_at : Option Nat
  payload : List Char
deriving DecidableEq, Repr

def pendingS : List Char := "Pending".data

/-- MongoDB `update_one({'_id': existing['_id']}, {'$set': resume_data})`
on the first stored document with the given name: every field carried by
the incoming document is overwritten; `created_at` is not part of the
update and is preserved. -/
def updateFirst (nm : List Char) (doc : ResumeDoc) : List ResumeDoc → List ResumeDoc
  | [] => []
  | d :: ds =>
    if d.name == nm then
      ⟨doc.name, doc.status, doc.updated_at, d.created_at, doc.payload⟩ :: ds
    else d :: updateFirst nm doc ds

/-- `DatabaseManager.save_resume` of Pragyanaiapp.py (lines 136-158):
set `updated_at`, default a missing status to `Pending`, and when a document
of the same name already exists, copy its stored `status` into the incoming
document (the explicit preserve branch) before the `$set` update; otherwise
insert with `created_at`. -/
def save_resume_main (now : Nat) (store : List ResumeDoc)
    (resume_data : ResumeDoc) : List ResumeDoc :=
  let st0 := match resume_data.status with
    | some s => some s
    | none => some pendingS
  match store.find? (fun d => d.name == resume_data.name) with
  | some existing =>
    let st1 := match existing.status with
      | some s => some s
      | none => st0
    updateFirst resume_data.name
      ⟨resume_data.name, st1, now, none, resume_data.payload⟩ store
  | none => store ++ [⟨resume_data.name, st0, now, some now, resume_data.payload⟩]

/-- `DatabaseManager.save_resume` of mongodb_manager.py (lines 83-94):
set `updated_at`, `setdefault` the status to `Pending`, and `$set` the whole
incoming document over any stored document of the same name — the stored
status is never consulted. -/
def save_resume_mgr (now : Nat) (store : List ResumeDoc)
    (resume_data : ResumeDoc) : List ResumeDoc :=
  let st0 := match resume_data.status with
    | some s => some s
    | none => some pendingS
  match store.find? (fun d => d.name == resume_data.name) with
  | some _ =>
    updateFirst resume_data.name
      ⟨resume_data.name, st0, now, none, resume_data.payload⟩ store
  | none => store ++ [⟨resume_data.name, st0, now, some now, resume_data.payload⟩]

/-- A stored match-result document, reduced to the field the retrieval
operation orders and caps by. -/
structure MatchDoc where
  created_at : Nat
  payload : List Char
deriving DecidableEq, Repr

/-- The MongoDB sort key `sort('created_at', -1)`: newest first. -/
def newerEq (a b : MatchDoc) : Prop := b.created_at ≤ a.created_at

instance : DecidableRel newerEq := fun a b => Nat.decLe b.created_at a.created_at

instance : IsTotal MatchDoc newerEq :=
  ⟨fun a b => (Nat.le_total b.created_at a.created_at).elim Or.inl Or.inr⟩

instance : IsTrans MatchDoc newerEq :=
  ⟨fun _ _ _ hab hbc => Nat.le_trans hbc hab⟩

/-- `DatabaseManager.get_match_results` of Pragyanaiapp.py (lines 214-224)
and mongodb_manager.py (lines 137-145):
`collection.find({}).sort('created_at', -1).limit(50)` — all stored match
results for the role's collection, ordered newest first, silently capped at
the first 50. -/
def get_match_results (docs : List MatchDoc) : List MatchDoc :=
  (List.insertionSort newerEq docs).take 50

/-- A well-formed extracted field: either the `'N/A'` sentinel or a nonempty
digit string (the shape of the section-3 invariant, taken per field). -/
def goodField (v : List Char) : Bool := (v == nA) || isDigits v

/-- A store holding one resume already approved by an admin. -/
def c9Store : List ResumeDoc :=
  [⟨"r1".data, some "Approved".data, 0, some 0, "old".data⟩]

/-- A re-upload of the same resume carrying no explicit status field. -/
def c9Doc : ResumeDoc := ⟨"r1".data, none, 0, none, "new".data⟩

/-- Fifty-one stored match results with distinct creation times. -/
def c10Docs : List MatchDoc := (List.range 51).map (fun i => ⟨i, []⟩)

-- ---------------------------------------------------------------------------
-- Basic facts about the character classes and literal matching
-- ---------------------------------------------------------------------------

lemma digit_toNat {c : Char} (h : isDigitC c = true) : 48 ≤ c.toNat ∧ c.toNat ≤ 57 :=
  of_decide_eq_true h

lemma isSpaceC_of_digit {c : Char} (h : isDigitC c = true) : isSpaceC c = false := by
  have hb := digit_toNat h
  exact decide_eq_false (by omega)

lemma lowerC_digit {c : Char} (h : isDigitC c = true) : lowerC c = c := by
  have hb := digit_toNat h
  unfold lowerC
  rw [if_neg (by omega)]

lemma char_beq_false {a b : Char} (h : a.toNat ≠ b.toNat) : (a == b) = false :=
  beq_eq_false_iff_ne.mpr (fun hab => h (by rw [hab]))

lemma stripPrefixC_self_append (p r : List Char) : stripPrefixC p (p ++ r) = some r := by
  induction p with
  | nil => rfl
  | cons x xs ih => simp [stripPrefixC, ih]

lemma stripPrefixCI_self_append (p r : List Char) : stripPrefixCI p (p ++ r) = some r := by
  induction p with
  | nil => rfl
  | cons x xs ih => simp [stripPrefixCI, ih]

lemma isPrefixC_self_append (p r : List Char) : isPrefixC p (p ++ r) = true := by
  simp [isPrefixC, stripPrefixC_self_append]

lemma takeWhile_all_append {p : Char → Bool} {a : List Char}
    (h : ∀ x ∈ a, p x = true) {hd : Char} (hh : p hd = false) (r : List Char) :
    (a ++ hd :: r).takeWhile p = a := by
  induction a with
  | nil => simp [List.takeWhile_cons_of_neg, hh]
  | cons x xs ih =>
    have hx : p x = true := h x (by simp)
    simp only [List.cons_append, List.takeWhile_cons_of_pos hx]
    rw [ih (fun y hy => h y (by simp [hy]))]

lemma dropWhile_all_append {p : Char → Bool} {a : List Char}
    (h : ∀ x ∈ a, p x = true) {hd : Char} (hh : p hd = false) (r : List Char) :
    (a ++ hd :: r).dropWhile p = hd :: r := by
  induction a with
  | nil => simp [List.dropWhile_cons_of_neg, hh]
  | cons x xs ih =>
    have hx : p x = true := h x (by simp)
    simp only [List.cons_append, List.dropWhile_cons_of_pos hx]
    exact ih (fun y hy => h y (by simp [hy]))

lemma dropWhile_append_stop {p : Char → Bool} (a : List Char) {hd : Char}
    (hh : p hd = false) (t : List Char) :
    (a ++ hd :: t).dropWhile p = a.dropWhile p ++ hd :: t := by
  induction a with
  | nil => simp [List.dropWhile_cons_of_neg, hh]
  | cons x xs ih =>
    by_cases hx : p x = true
    · simp only [List.cons_append, List.dropWhile_cons_of_pos hx]
      exact ih
    · rw [Bool.not_eq_true] at hx
      simp [List.dropWhile_cons_of_neg, hx]

-- ---------------------------------------------------------------------------
-- Captured groups are nonempty digit strings
-- ---------------------------------------------------------------------------

lemma scoreTail_digits {s g : List Char} (h : scoreTail? s = some g) : isDigits g = true := by
  simp only [scoreTail?] at h
  split at h
  · exact absurd h (by simp)
  · split at h
    · injection h with h
      subst h
      rename_i hne _
      simp only [isDigits, Bool.and_eq_true, Bool.not_eq_true', List.all_eq_true]
      exact ⟨by simpa using hne, fun x hx => List.mem_takeWhile_imp hx⟩
    · exact absurd h (by simp)

lemma percentTail_digits {s g : List Char} (h : percentTail? s = some g) : isDigits g = true := by
  simp only [percentTail?] at h
  split at h
  · exact absurd h (by simp)
  · split at h
    · injection h with h
      subst h
      rename_i hne _
      simp only [isDigits, Bool.and_eq_true, Bool.not_eq_true', List.all_eq_true]
      exact ⟨by simpa using hne, fun x hx => List.mem_takeWhile_imp hx⟩
    · exact absurd h (by simp)

lemma searchScore_digits {s g : List Char} (h : searchScore s = some g) : isDigits g = true := by
  induction s with
  | nil => simp [searchScore] at h
  | cons x t ih =>
    rw [searchScore] at h
    cases hsp : stripPrefixCI scoreLit (x :: t) with
    | none => simp only [hsp] at h; exact ih h
    | some rest =>
      simp only [hsp] at h
      cases hst : scoreTail? rest with
      | none => simp only [hst] at h; exact ih h
      | some g2 =>
        simp only [hst, Option.some.injEq] at h
        subst h
        exact scoreTail_digits hst

lemma searchLabeledPercent_digits {lab s g : List Char}
    (h : searchLabeledPercent lab s = some g) : isDigits g = true := by
  induction s with
  | nil => simp [searchLabeledPercent] at h
  | cons x t ih =>
    rw [searchLabeledPercent] at h
    cases hsp : stripPrefixCI lab (x :: t) with
    | none => simp only [hsp] at h; exact ih h
    | some rest =>
      simp only [hsp] at h
      cases hst : percentTail? rest with
      | none => simp only [hst] at h; exact ih h
      | some g2 =>
        simp only [hst, Option.some.injEq] at h
        subst h
        exact percentTail_digits hst

lemma goodField_getD {o : Option (List Char)}
    (h : ∀ g, o = some g → isDigits g = true) : goodField (o.getD nA) = true := by
  cases o with
  | none => decide
  | some g => simp [goodField, h g rfl]

lemma extractFitScores_eq_none {s : List Char} (h : sectionBlock? s = none) :
    extractFitScores s = ⟨(searchScore s).getD nA, nA, nA, nA⟩ := by
  unfold extractFitScores
  rw [h]

lemma extractFitScores_eq_some {s sec : List Char} (h : sectionBlock? s = some sec) :
    extractFitScores s =
      ⟨(searchScore s).getD nA,
       (searchLabeledPercent skillsLab sec).getD nA,
       (searchLabeledPercent expLab sec).getD nA,
       (searchLabeledPercent eduLab sec).getD nA⟩ := by
  unfold extractFitScores
  rw [h]

-- ---------------------------------------------------------------------------
-- Claim theorems (easy group)
-- ---------------------------------------------------------------------------

/-- C2: whenever the bounded (dot-matches-newline, non-greedy) search for the
block between `--- Section Match Analysis ---` and `Strengths/Matches:` finds
no match, the extractor returns the `'N/A'` sentinel for all three section
percentages — no percentage pattern elsewhere in the response is ever
consulted, because the three label searches run only inside the captured
block. -/
theorem c2_no_block_all_nA (s : List Char) (h : sectionBlock? s = none) :
    (extractFitScores s).skills_percent = nA ∧
    (extractFitScores s).experience_percent = nA ∧
    (extractFitScores s).education_percent = nA := by
  rw [extractFitScores_eq_none h]
  exact ⟨rfl, rfl, rfl⟩

/-- Witness for C2 at a response that contains a `Skills Match: 85%` pattern
but no section-analysis block: the bounded search fails and the outside
percentage is not captured. -/
theorem c2_no_block_all_nA_witness :
    sectionBlock? "Skills Match: 85% appears in the JD text".data = none ∧
    (extractFitScores "Skills Match: 85% appears in the JD text".data).skills_percent = nA :=
  ⟨by decide, (c2_no_block_all_nA _ (by decide)).1⟩

/-- C3: divergence evidence.  When `evaluate_jd_fit` raises, the candidate
dashboard's per-(resume, JD) loop records an item whose `overall_score` is
`'Error'` but whose three percent keys are absent — rendered as `'N/A'`
(≠ `'Error'`) by the `.get`-defaulting display — whereas the main
application's loop records `'Error'` in all four fields as the claim
states. -/
theorem c3_error_fields_divergence (resume_name jd_name e : List Char) :
    (candidate_error_item jd_name e).overall_score = errS ∧
    (candidate_error_item jd_name e).skills_percent = none ∧
    (candidate_error_item jd_name e).experience_percent = none ∧
    (candidate_error_item jd_name e).education_percent = none ∧
    candDisplayPercent (candidate_error_item jd_name e).skills_percent = nA ∧
    nA ≠ errS ∧
    (runMatchStep resume_name jd_name (.error e)).overall_score = errS ∧
    (runMatchStep resume_name jd_name (.error e)).skills_percent = errS ∧
    (runMatchStep resume_name jd_name (.error e)).experience_percent = errS ∧
    (runMatchStep resume_name jd_name (.error e)).education_percent = errS :=
  ⟨rfl, rfl, rfl, rfl, rfl, by decide, rfl, rfl, rfl, rfl⟩

/-- Counterexample to C4 as stated: the response `Overall Fit Score: 7/10`
(no section block) yields a partially populated result — the overall score is
the digit string `7` while all three percentages are `'N/A'`, so the result
is neither all-`'N/A'` nor all-populated. -/
theorem c4_counterexample :
    (extractFitScores "Overall Fit Score: 7/10".data).overall_score = "7".data ∧
    (extractFitScores "Overall Fit Score: 7/10".data).skills_percent = nA ∧
    "7".data ≠ nA := by
  decide

/-- C4 (amended): each of the four fields of an extracted result is,
independently of the others, either the `'N/A'` sentinel or a nonempty digit
string; mixed results (some populated, some `'N/A'`) can occur. -/
theorem c4_fields_individually_good (s : List Char) :
    goodField (extractFitScores s).overall_score = true ∧
    goodField (extractFitScores s).skills_percent = true ∧
    goodField (extractFitScores s).experience_percent = true ∧
    goodField (extractFitScores s).education_percent = true := by
  cases hsb : sectionBlock? s with
  | none =>
    rw [extractFitScores_eq_none hsb]
    exact ⟨goodField_getD (fun g hg => searchScore_digits hg),
      show goodField nA = true by decide, show goodField nA = true by decide,
      show goodField nA = true by decide⟩
  | some sec =>
    rw [extractFitScores_eq_some hsb]
    exact ⟨goodField_getD (fun g hg => searchScore_digits hg),
      goodField_getD (fun g hg => searchLabeledPercent_digits hg),
      goodField_getD (fun g hg => searchLabeledPercent_digits hg),
      goodField_getD (fun g hg => searchLabeledPercent_digits hg)⟩

/-- C7: `extract_content` is a total function into strings — an I/O or
library failure for any of the three file kinds becomes the
`Fatal Extraction Error:`-prefixed string, an empty or whitespace-only
PDF/DOCX extraction becomes the `Error:`-prefixed sentinel, and a readable
text file is returned verbatim. -/
theorem c7_extract_content_error_policy (e : List Char)
    (pages : List (Option (List Char))) (paras : List (List Char)) (c : List Char)
    (pr : Except (List Char) (List (Option (List Char))))
    (dr : Except (List Char) (List (List Char)))
    (tr : Except (List Char) (List Char)) :
    extract_content .pdf ⟨.error e, dr, tr⟩ = fatalMsg e ∧
    extract_content .docx ⟨pr, .error e, tr⟩ = fatalMsg e ∧
    extract_content .txt ⟨pr, dr, .error e⟩ = fatalMsg e ∧
    ((pstrip (pdfConcat pages)).isEmpty = true →
      extract_content .pdf ⟨.ok pages, dr, tr⟩ = pdfEmptyMsg) ∧
    ((pstrip (List.intercalate ['\n'] paras)).isEmpty = true →
      extract_content .docx ⟨pr, .ok paras, tr⟩ = docxEmptyMsg) ∧
    extract_content .txt ⟨pr, dr, .ok c⟩ = c ∧
    isPrefixC "Fatal Extraction Error:".data (fatalMsg e) = true ∧
    isPrefixC "Error:".data pdfEmptyMsg = true ∧
    isPrefixC "Error:".data docxEmptyMsg = true := by
  refine ⟨rfl, rfl, rfl, ?_, ?_, rfl, ?_, by decide, by decide⟩
  · intro h
    show (if (pstrip (pdfConcat pages)).isEmpty = true then pdfEmptyMsg
      else pdfConcat pages) = pdfEmptyMsg
    rw [if_pos h]
  · intro h
    show (if (pstrip (List.intercalate ['\n'] paras)).isEmpty = true then docxEmptyMsg
      else List.intercalate ['\n'] paras) = docxEmptyMsg
    rw [if_pos h]
  · rw [show fatalMsg e = "Fatal Extraction Error:".data ++
      (" Failed to read file content. Error details: ".data ++ e) from rfl]
    exact isPrefixC_self_append _ _

/-- Witness for C7: a raising PDF read yields the fatal sentinel, and a PDF
whose only page has no searchable text yields the scanned-image sentinel. -/
theorem c7_extract_content_error_policy_witness :
    extract_content .pdf ⟨.error "boom".data, .ok [], .ok []⟩ = fatalMsg "boom".data ∧
    extract_content .pdf ⟨.ok [none], .ok [], .ok []⟩ = pdfEmptyMsg :=
  ⟨(c7_extract_content_error_policy "boom".data [none] [] [] (.ok [none]) (.ok []) (.ok [])).1,
   (c7_extract_content_error_policy "boom".data [none] [] [] (.ok [none]) (.ok []) (.ok [])).2.2.2.1
     (by decide)⟩

/-- C8: the fit-evaluation prompt depends on the parsed resume only through
its `skills`, `experience` and `education` lookups — two parsed objects
agreeing on those three keys produce the identical prompt (for the same JD
and the same external JSON serializer), so no other resume field can
influence the LLM request. -/
theorem c8_prompt_depends_only_on_three_fields {V : Type}
    (dumps : Option V → Option V → Option V → List Char)
    (jd : List Char) (r1 r2 : List (List Char × V))
    (hs : pyGet r1 "skills".data = pyGet r2 "skills".data)
    (he : pyGet r1 "experience".data = pyGet r2 "experience".data)
    (hed : pyGet r1 "education".data = pyGet r2 "education".data) :
    evaluate_jd_fit_prompt dumps jd r1 = evaluate_jd_fit_prompt dumps jd r2 := by
  unfold evaluate_jd_fit_prompt
  rw [hs, he, hed]

/-- Witness for C8: adding an unrelated `name` field leaves the prompt
unchanged. -/
theorem c8_prompt_depends_only_on_three_fields_witness :
    evaluate_jd_fit_prompt (fun a b c => a.getD [] ++ b.getD [] ++ c.getD [])
        "JD text".data [(⟨"skills".data, "Python".data⟩ : List Char × List Char)] =
      evaluate_jd_fit_prompt (fun a b c => a.getD [] ++ b.getD [] ++ c.getD [])
        "JD text".data
        [(⟨"skills".data, "Python".data⟩ : List Char × List Char),
         ⟨"name".data, "Alice".data⟩] :=
  c8_prompt_depends_only_on_three_fields _ _ _ _ (by decide) (by decide) (by decide)

/-- C9: evidence for the divergence between the two `save_resume`
implementations.  Re-saving the resume `r1` — stored with status `Approved` —
with a document carrying no explicit status resets the stored status to
`Pending` under mongodb_manager.py's `save_resume` (which `setdefault`s and
`$set`s unconditionally), while Pragyanaiapp.py's `save_resume` (the variant
with the explicit preserve branch, matching the spec) leaves it `Approved`. -/
theorem c9_save_resume_status_reset_bug :
    (save_resume_mgr 5 c9Store c9Doc).map ResumeDoc.status = [some pendingS] ∧
    (save_resume_main 5 c9Store c9Doc).map ResumeDoc.status = [some "Approved".data] ∧
    some pendingS ≠ (some "Approved".data : Option (List Char)) := by
  decide

/-- C10: `get_match_results` returns at most 50 stored match results, in
newest-first order of creation time, and the returned items are the most
recent ones: every returned item is at least as recent as every item the cap
silently excludes, and returned plus excluded items together are exactly the
stored collection. -/
theorem c10_get_match_results_cap (docs : List MatchDoc) :
    (get_match_results docs).length ≤ 50 ∧
    List.Sorted newerEq (get_match_results docs) ∧
    (get_match_results docs ++ (List.insertionSort newerEq docs).drop 50).Perm docs ∧
    (∀ x ∈ get_match_results docs, ∀ y ∈ (List.insertionSort newerEq docs).drop 50,
      y.created_at ≤ x.created_at) := by
  have hs := List.sorted_insertionSort newerEq docs
  refine ⟨?_, ?_, ?_, ?_⟩
  · unfold get_match_results
    have := List.length_take 50 (List.insertionSort newerEq docs)
    omega
  · exact List.Pairwise.sublist (List.take_sublist _ _) hs
  · unfold get_match_results
    rw [List.take_append_drop]
    exact List.perm_insertionSort newerEq docs
  · intro x hx y hy
    have h2 : List.Pairwise newerEq
        ((List.insertionSort newerEq docs).take 50 ++
          (List.insertionSort newerEq docs).drop 50) := by
      rw [List.take_append_drop]
      exact hs
    exact (List.pairwise_append.mp h2).2.2 x hx y hy

/-- Witness for C10 on a store of 51 match results: the cap holds and the
excluded oldest item is at most as recent as a returned item. -/
theorem c10_get_match_results_cap_witness :
    (get_match_results c10Docs).length ≤ 50 ∧
    (⟨0, []⟩ : MatchDoc).created_at ≤ (⟨50, []⟩ : MatchDoc).created_at :=
  ⟨(c10_get_match_results_cap c10Docs).1,
   (c10_get_match_results_cap c10Docs).2.2.2 ⟨50, []⟩ (by decide) ⟨0, []⟩ (by decide)⟩

-- ---------------------------------------------------------------------------
-- C6: the JSON-recovery step on fenced responses
-- ---------------------------------------------------------------------------

lemma stripPrefixC_some {p : List Char} : ∀ {s r : List Char},
    stripPrefixC p s = some r → s = p ++ r := by
  induction p with
  | nil =>
    intro s r h
    simpa [stripPrefixC] using h
  | cons x xs ih =>
    intro s r h
    cases s with
    | nil => simp [stripPrefixC] at h
    | cons c cs =>
      rw [stripPrefixC] at h
      by_cases hb : (x == c) = true
      · rw [if_pos hb] at h
        have hcs := ih h
        have hx : x = c := eq_of_beq hb
        subst hx
        rw [hcs]
        rfl
      · rw [if_neg hb] at h
        exact absurd h (by simp)

lemma isPrefixC_exists {p s : List Char} (h : isPrefixC p s = true) : ∃ r, s = p ++ r := by
  unfold isPrefixC at h
  cases heq : stripPrefixC p s with
  | none => rw [heq] at h; simp at h
  | some r => exact ⟨r, stripPrefixC_some heq⟩

lemma isSuffixC_exists {p s : List Char} (h : isSuffixC p s = true) : ∃ r, s = r ++ p := by
  unfold isSuffixC at h
  obtain ⟨q, hq⟩ := isPrefixC_exists h
  refine ⟨q.reverse, ?_⟩
  rw [← List.reverse_reverse s, hq]
  simp

lemma ws_not_lbrace {ch : Char} (h : isSpaceC ch = true) : (ch == '{') = false := by
  have hd := of_decide_eq_true h
  refine char_beq_false ?_
  have hv : Char.toNat '{' = 123 := rfl
  omega

lemma ws_not_rbrace {ch : Char} (h : isSpaceC ch = true) : (ch == '}') = false := by
  have hd := of_decide_eq_true h
  refine char_beq_false ?_
  have hv : Char.toNat '}' = 125 := rfl
  omega

lemma mem_rstripC {x : Char} {B : List Char} (h : x ∈ rstripC B) : x ∈ B := by
  unfold rstripC at h
  rw [List.mem_reverse] at h
  exact List.mem_reverse.mp ((List.dropWhile_sublist _).subset h)

lemma rstripC_append_stop {hd : Char} (X : List Char) (hh : isSpaceC hd = false)
    (B : List Char) : rstripC (X ++ hd :: B) = X ++ hd :: rstripC B := by
  unfold rstripC
  rw [List.reverse_append, List.reverse_cons, List.append_assoc,
    List.singleton_append, dropWhile_append_stop _ hh]
  simp

lemma shape_pstrip {s mid : List Char} (h : BraceShape s mid) :
    BraceShape (pstrip s) mid := by
  obtain ⟨A, B, hs, hA, hB⟩ := h
  refine ⟨A.dropWhile isSpaceC, rstripC B, ?_, ?_, ?_⟩
  · rw [hs]
    unfold pstrip lstripC
    have h1 : A ++ ('{' :: mid ++ ['}']) ++ B = A ++ '{' :: (mid ++ ['}'] ++ B) := by
      simp [List.append_assoc]
    rw [h1, dropWhile_append_stop A (show isSpaceC '{' = false by decide)]
    have h2 : A.dropWhile isSpaceC ++ '{' :: (mid ++ ['}'] ++ B) =
        (A.dropWhile isSpaceC ++ '{' :: mid) ++ '}' :: B := by
      simp [List.append_assoc]
    rw [h2, rstripC_append_stop _ (show isSpaceC '}' = false by decide)]
    simp [List.append_assoc]
  · intro ch hch
    exact hA ch ((List.dropWhile_sublist _).subset hch)
  · intro ch hch
    exact hB ch (mem_rstripC hch)

lemma shape_fence_drop {s mid : List Char} (h : BraceShape s mid) :
    BraceShape (if isPrefixC "```json".data s then s.drop 7 else s) mid := by
  obtain ⟨A, B, hs, hA, hB⟩ := h
  by_cases hf : isPrefixC "```json".data s = true
  · rw [if_pos hf]
    obtain ⟨r, hr⟩ := isPrefixC_exists hf
    have h7 : 7 ≤ A.length := by
      by_contra hlt
      push_neg at hlt
      have htake : s.take 7 = "```json".data := by
        rw [hr]
        exact List.take_left' (by decide)
      have hmem : '{' ∈ s.take 7 := by
        have hform : s = A ++ '{' :: (mid ++ ['}'] ++ B) := by
          rw [hs]; simp [List.append_assoc]
        rw [hform, List.take_append_eq_append_take]
        refine List.mem_append_right _ ?_
        have hsub : 7 - A.length = (6 - A.length) + 1 := by omega
        rw [hsub, List.take_succ_cons]
        exact List.mem_cons_self _ _
      rw [htake] at hmem
      exact absurd hmem (by decide)
    refine ⟨A.drop 7, B, ?_, ?_, hB⟩
    · rw [hs, List.append_assoc, List.drop_append_of_le_length h7, ← List.append_assoc]
    · intro ch hch
      exact hA ch ((List.drop_sublist _ _).subset hch)
  · rw [if_neg hf]
    exact ⟨A, B, hs, hA, hB⟩

lemma shape_fence_take {s mid : List Char} (h : BraceShape s mid) :
    BraceShape (if isSuffixC "```".data s then s.take (s.length - 3) else s) mid := by
  obtain ⟨A, B, hs, hA, hB⟩ := h
  have hlenS : s.length = A.length + mid.length + 2 + B.length := by
    rw [hs]
    simp [List.length_append]
    omega
  by_cases hf : isSuffixC "```".data s = true
  · rw [if_pos hf]
    obtain ⟨r, hr⟩ := isSuffixC_exists hf
    have htl : ("```".data : List Char).length = 3 := rfl
    have h3 : 3 ≤ B.length := by
      by_contra hlt
      push_neg at hlt
      have hdropv : s.drop (s.length - 3) = "```".data := by
        rw [hr]
        refine List.drop_left' ?_
        rw [List.length_append, htl]
        omega
      have hmem : '}' ∈ s.drop (s.length - 3) := by
        have hform : s = (A ++ '{' :: mid) ++ '}' :: B := by
          rw [hs]; simp [List.append_assoc]
        have hlenA : ((A ++ '{' :: mid) ++ '}' :: B).length - 3 ≤ (A ++ '{' :: mid).length := by
          simp only [List.length_append, List.length_cons]
          omega
        rw [hform, List.drop_append_of_le_length hlenA]
        exact List.mem_append_right _ (List.mem_cons_self _ _)
      rw [hdropv] at hmem
      exact absurd hmem (by decide)
    refine ⟨A, B.take (B.length - 3), ?_, hA, ?_⟩
    · have hle : (A ++ ('{' :: mid ++ ['}'])).length ≤
          (A ++ ('{' :: mid ++ ['}']) ++ B).length - 3 := by
        simp only [List.length_append, List.length_cons]
        omega
      have hidx : (A ++ ('{' :: mid ++ ['}']) ++ B).length - 3 -
          (A ++ ('{' :: mid ++ ['}'])).length = B.length - 3 := by
        simp only [List.length_append, List.length_cons]
        omega
      rw [hs, List.take_append_eq_append_take, List.take_of_length_le hle, hidx]
    · intro ch hch
      exact hB ch ((List.take_sublist _ _).subset hch)
  · rw [if_neg hf]
    exact ⟨A, B, hs, hA, hB⟩

lemma findIdxC_append (c : Char) (A : List Char) (h : ∀ x ∈ A, (x == c) = false)
    (r : List Char) : findIdxC c (A ++ c :: r) = some A.length := by
  induction A with
  | nil => simp [findIdxC]
  | cons x xs ih =>
    have hx := h x (List.mem_cons_self x xs)
    simp [findIdxC, hx, ih (fun y hy => h y (List.mem_cons_of_mem _ hy))]

lemma slice_of_shape {s mid : List Char} (h : BraceShape s mid) :
    sliceStep s = '{' :: mid ++ ['}'] := by
  obtain ⟨A, B, hs, hA, hB⟩ := h
  have hlenS : s.length = A.length + mid.length + 2 + B.length := by
    rw [hs]
    simp [List.length_append]
    omega
  have hfind : findIdxC '{' s = some A.length := by
    have hform : s = A ++ '{' :: (mid ++ ['}'] ++ B) := by
      rw [hs]; simp [List.append_assoc]
    rw [hform]
    exact findIdxC_append '{' A hA _
  have hrev : s.reverse = B.reverse ++ '}' :: (mid.reverse ++ '{' :: A.reverse) := by
    rw [hs]
    simp [List.reverse_append, List.append_assoc]
  have hrfind : findIdxC '}' s.reverse = some B.length := by
    rw [hrev]
    have := findIdxC_append '}' B.reverse
      (fun x hx => hB x (List.mem_reverse.mp hx)) (mid.reverse ++ '{' :: A.reverse)
    simpa using this
  unfold sliceStep pyFind pyRFind
  rw [hfind, hrfind]
  simp only [Option.elim]
  have hje : ((s.length : Int) - 1 - (B.length : Int)) + 1 =
      (((A.length + (mid.length + 2)) : Nat) : Int) := by
    push_cast
    omega
  rw [hje, if_pos ?hcond]
  case hcond =>
    refine ⟨by omega, by omega, by omega⟩
  · simp only [Int.toNat_ofNat]
    have harith : (A.length + (mid.length + 2)) - A.length = mid.length + 2 := by omega
    rw [harith, hs, List.append_assoc, List.drop_left]
    refine List.take_left' ?_
    simp

lemma recover_core {s mid : List Char} (h : BraceShape s mid) :
    recoverJson s = '{' :: mid ++ ['}'] := by
  unfold recoverJson
  exact slice_of_shape (shape_pstrip (shape_fence_take (shape_fence_drop (shape_pstrip h))))

/-- C6: a resume-extraction response consisting of a JSON object wrapped in a
```` ```json ... ``` ```` fence with prose before and after the fence (the
prose containing no brace that could shadow the object's delimiters) is
recovered to exactly the same string — hence parsed by `json.loads` to the
same object — as the unfenced JSON text alone. -/
theorem c6_fenced_json_roundtrip (pre w1 mid w2 post : List Char)
    (hpre : ∀ ch ∈ pre, (ch == '{') = false)
    (hpost : ∀ ch ∈ post, (ch == '}') = false)
    (hw1 : ∀ ch ∈ w1, isSpaceC ch = true)
    (hw2 : ∀ ch ∈ w2, isSpaceC ch = true) :
    recoverJson (pre ++ "```json".data ++ w1 ++ ('{' :: mid ++ ['}']) ++
        (w2 ++ "```".data ++ post)) =
      recoverJson (w1 ++ ('{' :: mid ++ ['}']) ++ w2) := by
  have hfence : ∀ ch ∈ ("```json".data : List Char), (ch == '{') = false := by decide
  have htick : ∀ ch ∈ ("```".data : List Char), (ch == '}') = false := by decide
  have hshape1 : BraceShape (pre ++ "```json".data ++ w1 ++ ('{' :: mid ++ ['}']) ++
      (w2 ++ "```".data ++ post)) mid := by
    refine ⟨pre ++ "```json".data ++ w1, w2 ++ "```".data ++ post, by simp [List.append_assoc], ?_, ?_⟩
    · intro ch hch
      rcases List.mem_append.mp hch with hch2 | hch3
      · rcases List.mem_append.mp hch2 with hch4 | hch5
        · exact hpre ch hch4
        · exact hfence ch hch5
      · exact ws_not_lbrace (hw1 ch hch3)
    · intro ch hch
      rcases List.mem_append.mp hch with hch2 | hch3
      · rcases List.mem_append.mp hch2 with hch4 | hch5
        · exact ws_not_rbrace (hw2 ch hch4)
        · exact htick ch hch5
      · exact hpost ch hch3
  have hshape2 : BraceShape (w1 ++ ('{' :: mid ++ ['}']) ++ w2) mid := by
    refine ⟨w1, w2, rfl, ?_, ?_⟩
    · intro ch hch
      exact ws_not_lbrace (hw1 ch hch)
    · intro ch hch
      exact ws_not_rbrace (hw2 ch hch)
  rw [recover_core hshape1, recover_core hshape2]

/-- Witness for C6 on a concrete fenced response with prose on both sides. -/
theorem c6_fenced_json_roundtrip_witness :
    recoverJson ("Here is the extracted resume data:\n".data ++ "```json".data ++
        "\n".data ++ ('{' :: "\"name\": \"A\", \"skills\": [\"Py\"]".data ++ ['}']) ++
        ("\n".data ++ "```".data ++ "\nLet me know if you need more.".data)) =
      recoverJson ("\n".data ++ ('{' :: "\"name\": \"A\", \"skills\": [\"Py\"]".data ++ ['}']) ++
        "\n".data) :=
  c6_fenced_json_roundtrip _ _ _ _ _ (by decide) (by decide) (by decide) (by decide)

-- ---------------------------------------------------------------------------
-- C1/C5: the extractor on template-shaped responses
-- ---------------------------------------------------------------------------

lemma isDigits_parts {a : List Char} (h : isDigits a = true) :
    a ≠ [] ∧ ∀ x ∈ a, isDigitC x = true := by
  simp only [isDigits, Bool.and_eq_true, Bool.not_eq_true', List.all_eq_true] at h
  refine ⟨?_, h.2⟩
  have h1 := h.1
  intro hnil
  subst hnil
  simp at h1

lemma digit_ne_dash {ch : Char} (h : isDigitC ch = true) : (ch == '-') = false := by
  refine char_beq_false ?_
  have hb := digit_toNat h
  have hv : Char.toNat '-' = 45 := rfl
  omega

lemma scoreTail_shape {a : List Char} (ha : isDigits a = true) (r : List Char) :
    scoreTail? (' ' :: (a ++ '/' :: '1' :: '0' :: r)) = some a := by
  obtain ⟨hne, hall⟩ := isDigits_parts ha
  cases a with
  | nil => exact absurd rfl hne
  | cons h0 a' =>
    have hd0 : isDigitC h0 = true := hall _ (List.mem_cons_self _ _)
    simp only [scoreTail?]
    rw [List.dropWhile_cons_of_pos (show isSpaceC ' ' = true by decide),
      List.cons_append,
      List.dropWhile_cons_of_neg (by simp [isSpaceC_of_digit hd0]),
      ← List.cons_append,
      takeWhile_all_append hall (show isDigitC '/' = false by decide),
      dropWhile_all_append hall (show isDigitC '/' = false by decide),
      List.dropWhile_cons_of_neg (show ¬ isSpaceC '/' = true by decide)]
    rw [if_neg (by simp), if_pos (show isPrefixC "/10".data ('/' :: '1' :: '0' :: r) = true from rfl)]

lemma percentTail_shape {a : List Char} (ha : isDigits a = true) (r : List Char) :
    percentTail? (' ' :: (a ++ '%' :: r)) = some a := by
  obtain ⟨hne, hall⟩ := isDigits_parts ha
  cases a with
  | nil => exact absurd rfl hne
  | cons h0 a' =>
    have hd0 : isDigitC h0 = true := hall _ (List.mem_cons_self _ _)
    simp only [percentTail?]
    rw [List.dropWhile_cons_of_pos (show isSpaceC ' ' = true by decide),
      List.cons_append,
      List.dropWhile_cons_of_neg (by simp [isSpaceC_of_digit hd0]),
      ← List.cons_append,
      takeWhile_all_append hall (show isDigitC '%' = false by decide),
      dropWhile_all_append hall (show isDigitC '%' = false by decide)]
    rw [if_neg (by simp), if_pos (show isPrefixC ['%'] ('%' :: r) = true from rfl)]

lemma searchScore_here {s rest g : List Char} (hsp : stripPrefixCI scoreLit s = some rest)
    (hst : scoreTail? rest = some g) : searchScore s = some g := by
  cases s with
  | nil => simp [scoreLit, stripPrefixCI] at hsp
  | cons x t =>
    rw [searchScore]
    simp only [hsp, hst]

lemma searchScore_template {a : List Char} (ha : isDigits a = true) (r : List Char) :
    searchScore ("Overall Fit Score: ".data ++ (a ++ ("/10".data ++ r))) = some a := by
  rw [show ("/10".data : List Char) ++ r = '/' :: '1' :: '0' :: r from rfl]
  rw [show ("Overall Fit Score: ".data : List Char) ++ (a ++ '/' :: '1' :: '0' :: r) =
    scoreLit ++ (' ' :: (a ++ '/' :: '1' :: '0' :: r)) from rfl]
  exact searchScore_here (stripPrefixCI_self_append _ _) (scoreTail_shape ha r)

lemma beq_symm_false {a b : Char} (h : (a == b) = false) : (b == a) = false :=
  beq_eq_false_iff_ne.mpr (Ne.symm (beq_eq_false_iff_ne.mp h))

lemma findBlockEnd_cons_fail {ch : Char} {l : List Char}
    (h : isPrefixC strengthsLit ((ch :: l).dropWhile isSpaceC) = false) :
    findBlockEnd (ch :: l) = (findBlockEnd l).map (ch :: ·) := by
  rw [findBlockEnd, if_neg (by simp [h])]
  cases hfb : findBlockEnd l <;> simp [hfb]

lemma checkFail_digit_head {d : Char} (hd : isDigitC d = true) (l : List Char) :
    isPrefixC strengthsLit ((d :: l).dropWhile isSpaceC) = false := by
  have hws : ¬ isSpaceC d = true := by simp [isSpaceC_of_digit hd]
  rw [List.dropWhile_cons_of_neg hws]
  have hS : ('S' == d) = false := char_beq_false (by
    have hb := digit_toNat hd
    have h83 : Char.toNat 'S' = 83 := rfl
    omega)
  rw [show strengthsLit = 'S' :: "trengths/Matches:".data from rfl]
  unfold isPrefixC
  rw [stripPrefixC, if_neg (by simp [hS])]
  rfl

lemma findBlockEnd_skip_digits {u : List Char} (h : ∀ x ∈ u, isDigitC x = true)
    (v : List Char) : findBlockEnd (u ++ v) = (findBlockEnd v).map (u ++ ·) := by
  induction u with
  | nil => cases hfb : findBlockEnd v <;> simp [hfb]
  | cons x xs ih =>
    rw [List.cons_append,
      findBlockEnd_cons_fail (checkFail_digit_head (h x (List.mem_cons_self x xs)) _),
      ih (fun y hy => h y (List.mem_cons_of_mem _ hy))]
    cases hfb : findBlockEnd v <;> simp [hfb]

lemma findBlockEnd_skip {u v : List Char}
    (h : ∀ i, i < u.length →
      isPrefixC strengthsLit ((u.drop i ++ v).dropWhile isSpaceC) = false) :
    findBlockEnd (u ++ v) = (findBlockEnd v).map (u ++ ·) := by
  induction u with
  | nil => cases hfb : findBlockEnd v <;> simp [hfb]
  | cons x xs ih =>
    have h0 := h 0 (by simp)
    simp only [List.drop_zero, List.cons_append] at h0
    rw [List.cons_append, findBlockEnd_cons_fail h0,
      ih (fun i hi => by
        have hi1 := h (i + 1) (by simpa using Nat.succ_lt_succ hi)
        simpa [List.drop_succ_cons] using hi1)]
    cases hfb : findBlockEnd v <;> simp [hfb]

lemma findBlockEnd_terminator (tail : List Char) :
    findBlockEnd ("\n\nStrengths/Matches:\n".data ++ tail) = some [] := rfl

lemma fb_skip_skills {d : Char} (hd : isDigitC d = true) (v : List Char) :
    findBlockEnd ("Skills Match: ".data ++ (d :: v)) =
      (findBlockEnd (d :: v)).map ("Skills Match: ".data ++ ·) := by
  refine findBlockEnd_skip (fun i hi => ?_)
  rw [show ("Skills Match: ".data : List Char).length = 14 from rfl] at hi
  interval_cases i <;> first
    | rfl
    | exact checkFail_digit_head hd v

lemma fb_skip_pct_exp {d : Char} (hd : isDigitC d = true) (v : List Char) :
    findBlockEnd ("%\nExperience Match: ".data ++ (d :: v)) =
      (findBlockEnd (d :: v)).map ("%\nExperience Match: ".data ++ ·) := by
  refine findBlockEnd_skip (fun i hi => ?_)
  rw [show ("%\nExperience Match: ".data : List Char).length = 20 from rfl] at hi
  interval_cases i <;> first
    | rfl
    | exact checkFail_digit_head hd v

lemma fb_skip_pct_edu {d : Char} (hd : isDigitC d = true) (v : List Char) :
    findBlockEnd ("%\nEducation Match: ".data ++ (d :: v)) =
      (findBlockEnd (d :: v)).map ("%\nEducation Match: ".data ++ ·) := by
  refine findBlockEnd_skip (fun i hi => ?_)
  rw [show ("%\nEducation Match: ".data : List Char).length = 19 from rfl] at hi
  interval_cases i <;> first
    | rfl
    | exact checkFail_digit_head hd v

lemma fb_skip_exp {d : Char} (hd : isDigitC d = true) (v : List Char) :
    findBlockEnd ("Experience Match: ".data ++ (d :: v)) =
      (findBlockEnd (d :: v)).map ("Experience Match: ".data ++ ·) := by
  refine findBlockEnd_skip (fun i hi => ?_)
  rw [show ("Experience Match: ".data : List Char).length = 18 from rfl] at hi
  interval_cases i <;> first
    | rfl
    | exact checkFail_digit_head hd v

lemma fb_skip_pct (v : List Char) :
    findBlockEnd ('%' :: v) = (findBlockEnd v).map ('%' :: ·) :=
  findBlockEnd_cons_fail rfl

lemma sectionBlock_skip {pre : List Char} (h : ∀ ch ∈ pre, (ch == '-') = false)
    (r : List Char) : sectionBlock? (pre ++ r) = sectionBlock? r := by
  induction pre with
  | nil => rfl
  | cons x xs ih =>
    have hx := beq_symm_false (h x (List.mem_cons_self x xs))
    rw [List.cons_append, sectionBlock?]
    have hmark : stripPrefixC marker (x :: (xs ++ r)) = none := by
      rw [show marker = '-' :: "-- Section Match Analysis ---".data from rfl,
        stripPrefixC, if_neg (by simp [hx])]
    simp only [hmark]
    exact ih (fun y hy => h y (List.mem_cons_of_mem _ hy))

lemma sectionBlock_found {s rest g : List Char} (hsp : stripPrefixC marker s = some rest)
    (hfb : findBlockEnd (rest.dropWhile isSpaceC) = some g) : sectionBlock? s = some g := by
  cases s with
  | nil => simp [marker, stripPrefixC] at hsp
  | cons x t =>
    rw [sectionBlock?]
    simp only [hsp, hfb]

lemma sectionBlock_template {a : List Char} (ha : isDigits a = true) {rest0 g : List Char}
    (hfb : findBlockEnd (rest0.dropWhile isSpaceC) = some g) :
    sectionBlock? ("Overall Fit Score: ".data ++ (a ++ ("/10".data ++ ("\n\n".data ++
      (marker ++ rest0))))) = some g := by
  obtain ⟨-, hall⟩ := isDigits_parts ha
  have hre : "Overall Fit Score: ".data ++
      (a ++ ("/10".data ++ ("\n\n".data ++ (marker ++ rest0)))) =
      ("Overall Fit Score: ".data ++ (a ++ ("/10".data ++ "\n\n".data))) ++
        (marker ++ rest0) := by
    simp [List.append_assoc]
  rw [hre, sectionBlock_skip ?hmem]
  case hmem =>
    intro ch hch
    rcases List.mem_append.mp hch with h1 | h1
    · exact (by decide :
        ∀ ch ∈ ("Overall Fit Score: ".data : List Char), (ch == '-') = false) ch h1
    · rcases List.mem_append.mp h1 with h2 | h2
      · exact digit_ne_dash (hall ch h2)
      · rcases List.mem_append.mp h2 with h3 | h3
        · exact (by decide :
            ∀ ch ∈ ("/10".data : List Char), (ch == '-') = false) ch h3
        · exact (by decide :
            ∀ ch ∈ ("\n\n".data : List Char), (ch == '-') = false) ch h3
  exact sectionBlock_found (stripPrefixC_self_append _ _) hfb

lemma fb_skip_skills' {b : List Char} (hb : isDigits b = true) (w : List Char) :
    findBlockEnd ("Skills Match: ".data ++ (b ++ w)) =
      (findBlockEnd (b ++ w)).map ("Skills Match: ".data ++ ·) := by
  obtain ⟨hne, hall⟩ := isDigits_parts hb
  cases b with
  | nil => exact absurd rfl hne
  | cons b0 b' =>
    rw [List.cons_append]
    exact fb_skip_skills (hall _ (List.mem_cons_self _ _)) _

lemma fb_skip_pct_exp' {b : List Char} (hb : isDigits b = true) (w : List Char) :
    findBlockEnd ("%\nExperience Match: ".data ++ (b ++ w)) =
      (findBlockEnd (b ++ w)).map ("%\nExperience Match: ".data ++ ·) := by
  obtain ⟨hne, hall⟩ := isDigits_parts hb
  cases b with
  | nil => exact absurd rfl hne
  | cons b0 b' =>
    rw [List.cons_append]
    exact fb_skip_pct_exp (hall _ (List.mem_cons_self _ _)) _

lemma fb_skip_pct_edu' {b : List Char} (hb : isDigits b = true) (w : List Char) :
    findBlockEnd ("%\nEducation Match: ".data ++ (b ++ w)) =
      (findBlockEnd (b ++ w)).map ("%\nEducation Match: ".data ++ ·) := by
  obtain ⟨hne, hall⟩ := isDigits_parts hb
  cases b with
  | nil => exact absurd rfl hne
  | cons b0 b' =>
    rw [List.cons_append]
    exact fb_skip_pct_edu (hall _ (List.mem_cons_self _ _)) _

lemma fb_skip_exp' {b : List Char} (hb : isDigits b = true) (w : List Char) :
    findBlockEnd ("Experience Match: ".data ++ (b ++ w)) =
      (findBlockEnd (b ++ w)).map ("Experience Match: ".data ++ ·) := by
  obtain ⟨hne, hall⟩ := isDigits_parts hb
  cases b with
  | nil => exact absurd rfl hne
  | cons b0 b' =>
    rw [List.cons_append]
    exact fb_skip_exp (hall _ (List.mem_cons_self _ _)) _

lemma searchPercent_here {lab s rest g : List Char} (hlab : lab ≠ [])
    (hsp : stripPrefixCI lab s = some rest) (hpt : percentTail? rest = some g) :
    searchLabeledPercent lab s = some g := by
  cases s with
  | nil =>
    cases lab with
    | nil => exact absurd rfl hlab
    | cons l0 lr => simp [stripPrefixCI] at hsp
  | cons x t =>
    rw [searchLabeledPercent]
    simp only [hsp, hpt]

lemma search_skip_head (l0 : Char) (lr : List Char) {lab : List Char}
    (hl : lab = l0 :: lr) (u : List Char)
    (h : ∀ ch ∈ u, (lowerC l0 == lowerC ch) = false) (v : List Char) :
    searchLabeledPercent lab (u ++ v) = searchLabeledPercent lab v := by
  subst hl
  induction u with
  | nil => rfl
  | cons x xs ih =>
    rw [List.cons_append, searchLabeledPercent]
    have hsp : stripPrefixCI (l0 :: lr) (x :: (xs ++ v)) = none := by
      rw [stripPrefixCI, if_neg (by simp [h x (List.mem_cons_self x xs)])]
    simp only [hsp]
    exact ih (fun y hy => h y (List.mem_cons_of_mem _ hy))

lemma search_skip_idx {lab : List Char} (u : List Char) {v : List Char}
    (h : ∀ i, i < u.length → stripPrefixCI lab (u.drop i ++ v) = none) :
    searchLabeledPercent lab (u ++ v) = searchLabeledPercent lab v := by
  induction u with
  | nil => rfl
  | cons x xs ih =>
    have h0 := h 0 (by simp)
    simp only [List.drop_zero, List.cons_append] at h0
    rw [List.cons_append, searchLabeledPercent]
    simp only [h0]
    exact ih (fun i hi => by
      have hi1 := h (i + 1) (by simpa using Nat.succ_lt_succ hi)
      simpa [List.drop_succ_cons] using hi1)

lemma lower_ne_digit {l0 d : Char} (hl : 97 ≤ (lowerC l0).toNat) (hd : isDigitC d = true) :
    (lowerC l0 == lowerC d) = false := by
  rw [lowerC_digit hd]
  refine char_beq_false ?_
  have hb := digit_toNat hd
  omega

lemma search_skip_digits (l0 : Char) (lr : List Char) {lab : List Char}
    (hl : lab = l0 :: lr) (h97 : 97 ≤ (lowerC l0).toNat) (u : List Char)
    (h : ∀ x ∈ u, isDigitC x = true) (v : List Char) :
    searchLabeledPercent lab (u ++ v) = searchLabeledPercent lab v :=
  search_skip_head l0 lr hl u (fun ch hch => lower_ne_digit h97 (h ch hch)) v

lemma search_edu_skip_expseg (v : List Char) :
    searchLabeledPercent eduLab ("%\nExperience Match: ".data ++ v) =
      searchLabeledPercent eduLab v := by
  refine search_skip_idx _ (fun i hi => ?_)
  rw [show ("%\nExperience Match: ".data : List Char).length = 20 from rfl] at hi
  interval_cases i <;> rfl

lemma search_exp_skip_eduseg (v : List Char) :
    searchLabeledPercent expLab ("%\nEducation Match: ".data ++ v) =
      searchLabeledPercent expLab v := by
  refine search_skip_idx _ (fun i hi => ?_)
  rw [show ("%\nEducation Match: ".data : List Char).length = 19 from rfl] at hi
  interval_cases i <;> rfl

lemma search_edu_skip_expseg2 (v : List Char) :
    searchLabeledPercent eduLab ("Experience Match: ".data ++ v) =
      searchLabeledPercent eduLab v := by
  refine search_skip_idx _ (fun i hi => ?_)
  rw [show ("Experience Match: ".data : List Char).length = 18 from rfl] at hi
  interval_cases i <;> rfl

lemma skillsLab_cons : skillsLab = 'S' :: "kills Match:".data := rfl

lemma expLab_cons : expLab = 'E' :: "xperience Match:".data := rfl

lemma eduLab_cons : eduLab = 'E' :: "ducation Match:".data := rfl

lemma search_skills_at {b : List Char} (hb : isDigits b = true) (R : List Char) :
    searchLabeledPercent skillsLab ("Skills Match: ".data ++ (b ++ ('%' :: R))) = some b := by
  rw [show ("Skills Match: ".data : List Char) ++ (b ++ ('%' :: R)) =
    skillsLab ++ (' ' :: (b ++ '%' :: R)) from rfl]
  exact searchPercent_here (by decide) (stripPrefixCI_self_append _ _) (percentTail_shape hb R)

lemma search_exp_at {b : List Char} (hb : isDigits b = true) (R : List Char) :
    searchLabeledPercent expLab ("Experience Match: ".data ++ (b ++ ('%' :: R))) = some b := by
  rw [show ("Experience Match: ".data : List Char) ++ (b ++ ('%' :: R)) =
    expLab ++ (' ' :: (b ++ '%' :: R)) from rfl]
  exact searchPercent_here (by decide) (stripPrefixCI_self_append _ _) (percentTail_shape hb R)

lemma search_exp_after_skills {b c : List Char} (hb : isDigits b = true)
    (hc : isDigits c = true) (R : List Char) :
    searchLabeledPercent expLab ("Skills Match: ".data ++ (b ++ ("%\n".data ++
      (expLab ++ (' ' :: (c ++ '%' :: R)))))) = some c := by
  rw [search_skip_head 'E' "xperience Match:".data expLab_cons
      "Skills Match: ".data (by decide) _,
    search_skip_digits 'E' "xperience Match:".data expLab_cons (by decide)
      b (isDigits_parts hb).2 _,
    search_skip_head 'E' "xperience Match:".data expLab_cons "%\n".data (by decide) _]
  exact searchPercent_here (by decide) (stripPrefixCI_self_append _ _) (percentTail_shape hc R)

lemma search_edu_after_skills {b c : List Char} (hb : isDigits b = true)
    (hc : isDigits c = true) (R : List Char) :
    searchLabeledPercent eduLab ("Skills Match: ".data ++ (b ++ ("%\n".data ++
      (eduLab ++ (' ' :: (c ++ '%' :: R)))))) = some c := by
  rw [search_skip_head 'E' "ducation Match:".data eduLab_cons
      "Skills Match: ".data (by decide) _,
    search_skip_digits 'E' "ducation Match:".data eduLab_cons (by decide)
      b (isDigits_parts hb).2 _,
    search_skip_head 'E' "ducation Match:".data eduLab_cons "%\n".data (by decide) _]
  exact searchPercent_here (by decide) (stripPrefixCI_self_append _ _) (percentTail_shape hc R)

lemma search_edu_after_exp {b c : List Char} (hb : isDigits b = true)
    (hc : isDigits c = true) (R : List Char) :
    searchLabeledPercent eduLab ("Experience Match: ".data ++ (b ++ ("%\n".data ++
      (eduLab ++ (' ' :: (c ++ '%' :: R)))))) = some c := by
  rw [search_edu_skip_expseg2 _,
    search_skip_digits 'E' "ducation Match:".data eduLab_cons (by decide)
      b (isDigits_parts hb).2 _,
    search_skip_head 'E' "ducation Match:".data eduLab_cons "%\n".data (by decide) _]
  exact searchPercent_here (by decide) (stripPrefixCI_self_append _ _) (percentTail_shape hc R)

lemma search_edu_after_skills_exp {b c d : List Char} (hb : isDigits b = true)
    (hc : isDigits c = true) (hd : isDigits d = true) (R : List Char) :
    searchLabeledPercent eduLab ("Skills Match: ".data ++ (b ++
      ("%\nExperience Match: ".data ++ (c ++ ("%\n".data ++
      (eduLab ++ (' ' :: (d ++ '%' :: R)))))))) = some d := by
  rw [search_skip_head 'E' "ducation Match:".data eduLab_cons
      "Skills Match: ".data (by decide) _,
    search_skip_digits 'E' "ducation Match:".data eduLab_cons (by decide)
      b (isDigits_parts hb).2 _,
    search_edu_skip_expseg _,
    search_skip_digits 'E' "ducation Match:".data eduLab_cons (by decide)
      c (isDigits_parts hc).2 _,
    search_skip_head 'E' "ducation Match:".data eduLab_cons "%\n".data (by decide) _]
  exact searchPercent_here (by decide) (stripPrefixCI_self_append _ _) (percentTail_shape hd R)

lemma search_edu_none_noedu {b c : List Char} (hb : isDigits b = true)
    (hc : isDigits c = true) :
    searchLabeledPercent eduLab ("Skills Match: ".data ++ (b ++
      ("%\nExperience Match: ".data ++ (c ++ "%".data)))) = none := by
  rw [search_skip_head 'E' "ducation Match:".data eduLab_cons
      "Skills Match: ".data (by decide) _,
    search_skip_digits 'E' "ducation Match:".data eduLab_cons (by decide)
      b (isDigits_parts hb).2 _,
    search_edu_skip_expseg _,
    search_skip_digits 'E' "ducation Match:".data eduLab_cons (by decide)
      c (isDigits_parts hc).2 _]
  rfl

lemma search_exp_none_noexp {b c : List Char} (hb : isDigits b = true)
    (hc : isDigits c = true) :
    searchLabeledPercent expLab ("Skills Match: ".data ++ (b ++
      ("%\nEducation Match: ".data ++ (c ++ "%".data)))) = none := by
  rw [search_skip_head 'E' "xperience Match:".data expLab_cons
      "Skills Match: ".data (by decide) _,
    search_skip_digits 'E' "xperience Match:".data expLab_cons (by decide)
      b (isDigits_parts hb).2 _,
    search_exp_skip_eduseg _,
    search_skip_digits 'E' "xperience Match:".data expLab_cons (by decide)
      c (isDigits_parts hc).2 _]
  rfl

lemma search_skills_none_noskills {b c : List Char} (hb : isDigits b = true)
    (hc : isDigits c = true) :
    searchLabeledPercent skillsLab ("Experience Match: ".data ++ (b ++
      ("%\nEducation Match: ".data ++ (c ++ "%".data)))) = none := by
  rw [search_skip_head 'S' "kills Match:".data skillsLab_cons
      "Experience Match: ".data (by decide) _,
    search_skip_digits 'S' "kills Match:".data skillsLab_cons (by decide)
      b (isDigits_parts hb).2 _,
    search_skip_head 'S' "kills Match:".data skillsLab_cons
      "%\nEducation Match: ".data (by decide) _,
    search_skip_digits 'S' "kills Match:".data skillsLab_cons (by decide)
      c (isDigits_parts hc).2 _]
  rfl

lemma block_full {b c d : List Char} (hb : isDigits b = true) (hc : isDigits c = true)
    (hd : isDigits d = true) (tail : List Char) :
    findBlockEnd ("Skills Match: ".data ++ (b ++ ("%\nExperience Match: ".data ++
      (c ++ ("%\nEducation Match: ".data ++ (d ++ ('%' ::
      ("\n\nStrengths/Matches:\n".data ++ tail)))))))) =
      some ("Skills Match: ".data ++ (b ++ ("%\nExperience Match: ".data ++
        (c ++ ("%\nEducation Match: ".data ++ (d ++ "%".data)))))) := by
  rw [fb_skip_skills' hb, findBlockEnd_skip_digits (isDigits_parts hb).2,
    fb_skip_pct_exp' hc, findBlockEnd_skip_digits (isDigits_parts hc).2,
    fb_skip_pct_edu' hd, findBlockEnd_skip_digits (isDigits_parts hd).2,
    fb_skip_pct, findBlockEnd_terminator]
  rfl

lemma block_noEdu {b c : List Char} (hb : isDigits b = true) (hc : isDigits c = true)
    (tail : List Char) :
    findBlockEnd ("Skills Match: ".data ++ (b ++ ("%\nExperience Match: ".data ++
      (c ++ ('%' :: ("\n\nStrengths/Matches:\n".data ++ tail)))))) =
      some ("Skills Match: ".data ++ (b ++ ("%\nExperience Match: ".data ++
        (c ++ "%".data)))) := by
  rw [fb_skip_skills' hb, findBlockEnd_skip_digits (isDigits_parts hb).2,
    fb_skip_pct_exp' hc, findBlockEnd_skip_digits (isDigits_parts hc).2,
    fb_skip_pct, findBlockEnd_terminator]
  rfl

lemma block_noExp {b c : List Char} (hb : isDigits b = true) (hc : isDigits c = true)
    (tail : List Char) :
    findBlockEnd ("Skills Match: ".data ++ (b ++ ("%\nEducation Match: ".data ++
      (c ++ ('%' :: ("\n\nStrengths/Matches:\n".data ++ tail)))))) =
      some ("Skills Match: ".data ++ (b ++ ("%\nEducation Match: ".data ++
        (c ++ "%".data)))) := by
  rw [fb_skip_skills' hb, findBlockEnd_skip_digits (isDigits_parts hb).2,
    fb_skip_pct_edu' hc, findBlockEnd_skip_digits (isDigits_parts hc).2,
    fb_skip_pct, findBlockEnd_terminator]
  rfl

lemma block_noSkills {b c : List Char} (hb : isDigits b = true) (hc : isDigits c = true)
    (tail : List Char) :
    findBlockEnd ("Experience Match: ".data ++ (b ++ ("%\nEducation Match: ".data ++
      (c ++ ('%' :: ("\n\nStrengths/Matches:\n".data ++ tail)))))) =
      some ("Experience Match: ".data ++ (b ++ ("%\nEducation Match: ".data ++
        (c ++ "%".data)))) := by
  rw [fb_skip_exp' hb, findBlockEnd_skip_digits (isDigits_parts hb).2,
    fb_skip_pct_edu' hc, findBlockEnd_skip_digits (isDigits_parts hc).2,
    fb_skip_pct, findBlockEnd_terminator]
  rfl

lemma extract_template_full (a b c d tail : List Char) (ha : isDigits a = true)
    (hb : isDigits b = true) (hc : isDigits c = true) (hd : isDigits d = true) :
    extractFitScores (fitTemplate a b c d tail) = ⟨a, b, c, d⟩ := by
  have hT : fitTemplate a b c d tail =
      "Overall Fit Score: ".data ++ (a ++ ("/10".data ++ ("\n\n".data ++ (marker ++
        ("\n".data ++ ("Skills Match: ".data ++ (b ++ ("%\nExperience Match: ".data ++
        (c ++ ("%\nEducation Match: ".data ++ (d ++ ("%".data ++
        ("\n\nStrengths/Matches:\n".data ++ tail))))))))))))) := by
    simp [fitTemplate, marker, List.append_assoc]
  have hsec : sectionBlock? (fitTemplate a b c d tail) =
      some ("Skills Match: ".data ++ (b ++ ("%\nExperience Match: ".data ++
        (c ++ ("%\nEducation Match: ".data ++ (d ++ "%".data)))))) := by
    rw [hT]
    refine sectionBlock_template ha ?_
    have hdw : (("\n".data ++ ("Skills Match: ".data ++ (b ++
        ("%\nExperience Match: ".data ++ (c ++ ("%\nEducation Match: ".data ++
        (d ++ ("%".data ++ ("\n\nStrengths/Matches:\n".data ++ tail))))))))) :
          List Char).dropWhile isSpaceC =
        "Skills Match: ".data ++ (b ++ ("%\nExperience Match: ".data ++
        (c ++ ("%\nEducation Match: ".data ++ (d ++ ('%' ::
        ("\n\nStrengths/Matches:\n".data ++ tail))))))) := rfl
    rw [hdw]
    exact block_full hb hc hd tail
  have hsc : searchScore (fitTemplate a b c d tail) = some a := by
    rw [hT]
    exact searchScore_template ha _
  have hsk : searchLabeledPercent skillsLab ("Skills Match: ".data ++
      (b ++ ("%\nExperience Match: ".data ++ (c ++ ("%\nEducation Match: ".data ++
      (d ++ "%".data)))))) = some b := by
    rw [show ("Skills Match: ".data : List Char) ++ (b ++ ("%\nExperience Match: ".data ++
      (c ++ ("%\nEducation Match: ".data ++ (d ++ "%".data))))) =
      "Skills Match: ".data ++ (b ++ ('%' :: ("\nExperience Match: ".data ++
      (c ++ ("%\nEducation Match: ".data ++ (d ++ "%".data)))))) from rfl]
    exact search_skills_at hb _
  have hex : searchLabeledPercent expLab ("Skills Match: ".data ++
      (b ++ ("%\nExperience Match: ".data ++ (c ++ ("%\nEducation Match: ".data ++
      (d ++ "%".data)))))) = some c := by
    rw [show ("Skills Match: ".data : List Char) ++ (b ++ ("%\nExperience Match: ".data ++
      (c ++ ("%\nEducation Match: ".data ++ (d ++ "%".data))))) =
      "Skills Match: ".data ++ (b ++ ("%\n".data ++ (expLab ++ (' ' ::
      (c ++ '%' :: ("\nEducation Match: ".data ++ (d ++ "%".data))))))) from rfl]
    exact search_exp_after_skills hb hc _
  have hed : searchLabeledPercent eduLab ("Skills Match: ".data ++
      (b ++ ("%\nExperience Match: ".data ++ (c ++ ("%\nEducation Match: ".data ++
      (d ++ "%".data)))))) = some d := by
    rw [show ("Skills Match: ".data : List Char) ++ (b ++ ("%\nExperience Match: ".data ++
      (c ++ ("%\nEducation Match: ".data ++ (d ++ "%".data))))) =
      "Skills Match: ".data ++ (b ++ ("%\nExperience Match: ".data ++ (c ++
      ("%\n".data ++ (eduLab ++ (' ' :: (d ++ '%' :: []))))))) from rfl]
    exact search_edu_after_skills_exp hb hc hd []
  rw [extractFitScores_eq_some hsec, hsc, hsk, hex, hed]
  rfl

lemma extract_template_noEdu (a b c tail : List Char) (ha : isDigits a = true)
    (hb : isDigits b = true) (hc : isDigits c = true) :
    extractFitScores (fitTemplateNoEdu a b c tail) = ⟨a, b, c, nA⟩ := by
  have hT : fitTemplateNoEdu a b c tail =
      "Overall Fit Score: ".data ++ (a ++ ("/10".data ++ ("\n\n".data ++ (marker ++
        ("\n".data ++ ("Skills Match: ".data ++ (b ++ ("%\nExperience Match: ".data ++
        (c ++ ("%".data ++ ("\n\nStrengths/Matches:\n".data ++ tail))))))))))) := by
    simp [fitTemplateNoEdu, marker, List.append_assoc]
  have hsec : sectionBlock? (fitTemplateNoEdu a b c tail) =
      some ("Skills Match: ".data ++ (b ++ ("%\nExperience Match: ".data ++
        (c ++ "%".data)))) := by
    rw [hT]
    refine sectionBlock_template ha ?_
    have hdw : (("\n".data ++ ("Skills Match: ".data ++ (b ++
        ("%\nExperience Match: ".data ++ (c ++ ("%".data ++
        ("\n\nStrengths/Matches:\n".data ++ tail))))))) : List Char).dropWhile isSpaceC =
        "Skills Match: ".data ++ (b ++ ("%\nExperience Match: ".data ++
        (c ++ ('%' :: ("\n\nStrengths/Matches:\n".data ++ tail))))) := rfl
    rw [hdw]
    exact block_noEdu hb hc tail
  have hsc : searchScore (fitTemplateNoEdu a b c tail) = some a := by
    rw [hT]
    exact searchScore_template ha _
  have hsk : searchLabeledPercent skillsLab ("Skills Match: ".data ++
      (b ++ ("%\nExperience Match: ".data ++ (c ++ "%".data)))) = some b := by
    rw [show ("Skills Match: ".data : List Char) ++ (b ++ ("%\nExperience Match: ".data ++
      (c ++ "%".data))) = "Skills Match: ".data ++ (b ++ ('%' ::
      ("\nExperience Match: ".data ++ (c ++ "%".data)))) from rfl]
    exact search_skills_at hb _
  have hex : searchLabeledPercent expLab ("Skills Match: ".data ++
      (b ++ ("%\nExperience Match: ".data ++ (c ++ "%".data)))) = some c := by
    rw [show ("Skills Match: ".data : List Char) ++ (b ++ ("%\nExperience Match: ".data ++
      (c ++ "%".data))) = "Skills Match: ".data ++ (b ++ ("%\n".data ++ (expLab ++
      (' ' :: (c ++ '%' :: []))))) from rfl]
    exact search_exp_after_skills hb hc []
  have hed := search_edu_none_noedu hb hc
  rw [extractFitScores_eq_some hsec, hsc, hsk, hex, hed]
  rfl

lemma extract_template_noExp (a b c tail : List Char) (ha : isDigits a = true)
    (hb : isDigits b = true) (hc : isDigits c = true) :
    extractFitScores (fitTemplateNoExp a b c tail) = ⟨a, b, nA, c⟩ := by
  have hT : fitTemplateNoExp a b c tail =
      "Overall Fit Score: ".data ++ (a ++ ("/10".data ++ ("\n\n".data ++ (marker ++
        ("\n".data ++ ("Skills Match: ".data ++ (b ++ ("%\nEducation Match: ".data ++
        (c ++ ("%".data ++ ("\n\nStrengths/Matches:\n".data ++ tail))))))))))) := by
    simp [fitTemplateNoExp, marker, List.append_assoc]
  have hsec : sectionBlock? (fitTemplateNoExp a b c tail) =
      some ("Skills Match: ".data ++ (b ++ ("%\nEducation Match: ".data ++
        (c ++ "%".data)))) := by
    rw [hT]
    refine sectionBlock_template ha ?_
    have hdw : (("\n".data ++ ("Skills Match: ".data ++ (b ++
        ("%\nEducation Match: ".data ++ (c ++ ("%".data ++
        ("\n\nStrengths/Matches:\n".data ++ tail))))))) : List Char).dropWhile isSpaceC =
        "Skills Match: ".data ++ (b ++ ("%\nEducation Match: ".data ++
        (c ++ ('%' :: ("\n\nStrengths/Matches:\n".data ++ tail))))) := rfl
    rw [hdw]
    exact block_noExp hb hc tail
  have hsc : searchScore (fitTemplateNoExp a b c tail) = some a := by
    rw [hT]
    exact searchScore_template ha _
  have hsk : searchLabeledPercent skillsLab ("Skills Match: ".data ++
      (b ++ ("%\nEducation Match: ".data ++ (c ++ "%".data)))) = some b := by
    rw [show ("Skills Match: ".data : List Char) ++ (b ++ ("%\nEducation Match: ".data ++
      (c ++ "%".data))) = "Skills Match: ".data ++ (b ++ ('%' ::
      ("\nEducation Match: ".data ++ (c ++ "%".data)))) from rfl]
    exact search_skills_at hb _
  have hex := search_exp_none_noexp hb hc
  have hed : searchLabeledPercent eduLab ("Skills Match: ".data ++
      (b ++ ("%\nEducation Match: ".data ++ (c ++ "%".data)))) = some c := by
    rw [show ("Skills Match: ".data : List Char) ++ (b ++ ("%\nEducation Match: ".data ++
      (c ++ "%".data))) = "Skills Match: ".data ++ (b ++ ("%\n".data ++ (eduLab ++
      (' ' :: (c ++ '%' :: []))))) from rfl]
    exact search_edu_after_skills hb hc []
  rw [extractFitScores_eq_some hsec, hsc, hsk, hex, hed]
  rfl

lemma extract_template_noSkills (a b c tail : List Char) (ha : isDigits a = true)
    (hb : isDigits b = true) (hc : isDigits c = true) :
    extractFitScores (fitTemplateNoSkills a b c tail) = ⟨a, nA, b, c⟩ := by
  have hT : fitTemplateNoSkills a b c tail =
      "Overall Fit Score: ".data ++ (a ++ ("/10".data ++ ("\n\n".data ++ (marker ++
        ("\n".data ++ ("Experience Match: ".data ++ (b ++ ("%\nEducation Match: ".data ++
        (c ++ ("%".data ++ ("\n\nStrengths/Matches:\n".data ++ tail))))))))))) := by
    simp [fitTemplateNoSkills, marker, List.append_assoc]
  have hsec : sectionBlock? (fitTemplateNoSkills a b c tail) =
      some ("Experience Match: ".data ++ (b ++ ("%\nEducation Match: ".data ++
        (c ++ "%".data)))) := by
    rw [hT]
    refine sectionBlock_template ha ?_
    have hdw : (("\n".data ++ ("Experience Match: ".data ++ (b ++
        ("%\nEducation Match: ".data ++ (c ++ ("%".data ++
        ("\n\nStrengths/Matches:\n".data ++ tail))))))) : List Char).dropWhile isSpaceC =
        "Experience Match: ".data ++ (b ++ ("%\nEducation Match: ".data ++
        (c ++ ('%' :: ("\n\nStrengths/Matches:\n".data ++ tail))))) := rfl
    rw [hdw]
    exact block_noSkills hb hc tail
  have hsc : searchScore (fitTemplateNoSkills a b c tail) = some a := by
    rw [hT]
    exact searchScore_template ha _
  have hsk := search_skills_none_noskills hb hc
  have hex : searchLabeledPercent expLab ("Experience Match: ".data ++
      (b ++ ("%\nEducation Match: ".data ++ (c ++ "%".data)))) = some b := by
    rw [show ("Experience Match: ".data : List Char) ++ (b ++ ("%\nEducation Match: ".data ++
      (c ++ "%".data))) = "Experience Match: ".data ++ (b ++ ('%' ::
      ("\nEducation Match: ".data ++ (c ++ "%".data)))) from rfl]
    exact search_exp_at hb _
  have hed : searchLabeledPercent eduLab ("Experience Match: ".data ++
      (b ++ ("%\nEducation Match: ".data ++ (c ++ "%".data)))) = some c := by
    rw [show ("Experience Match: ".data : List Char) ++ (b ++ ("%\nEducation Match: ".data ++
      (c ++ "%".data))) = "Experience Match: ".data ++ (b ++ ("%\n".data ++ (eduLab ++
      (' ' :: (c ++ '%' :: []))))) from rfl]
    exact search_edu_after_exp hb hc []
  rw [extractFitScores_eq_some hsec, hsc, hsk, hex, hed]
  rfl

/-- C1: for every response that instantiates the literal section-6 template
with bare (nonempty) digit values for the overall score and the three
percentages — and any continuation after the `Strengths/Matches:` header —
the extraction step recovers exactly those digit strings as
`overall_score`, `skills_percent`, `experience_percent` and
`education_percent`. -/
theorem c1_template_digits_recovered (a b c d tail : List Char)
    (ha : isDigits a = true) (hb : isDigits b = true)
    (hc : isDigits c = true) (hd : isDigits d = true) :
    extractFitScores (fitTemplate a b c d tail) = ⟨a, b, c, d⟩ :=
  extract_template_full a b c d tail ha hb hc hd

/-- Witness for C1 at the spec's end-to-end example: score 7/10 and
percentages 80/60/90 with a bullet under `Strengths/Matches:`. -/
theorem c1_template_digits_recovered_witness :
    extractFitScores (fitTemplate "7".data "80".data "60".data "90".data
        "- Strong Python skills\n".data) =
      ⟨"7".data, "80".data, "60".data, "90".data⟩ :=
  c1_template_digits_recovered "7".data "80".data "60".data "90".data
    "- Strong Python skills\n".data (by decide) (by decide) (by decide) (by decide)

/-- C5: on a template response whose section block carries only two of the
three label lines, the extractor returns the two present digit strings for
their labels and the `'N/A'` sentinel for the absent one — whichever of the
three labels is the absent one: the three captures succeed or fail
independently. -/
theorem c5_two_of_three_percentages (a b c tail : List Char)
    (ha : isDigits a = true) (hb : isDigits b = true) (hc : isDigits c = true) :
    extractFitScores (fitTemplateNoEdu a b c tail) = ⟨a, b, c, nA⟩ ∧
    extractFitScores (fitTemplateNoExp a b c tail) = ⟨a, b, nA, c⟩ ∧
    extractFitScores (fitTemplateNoSkills a b c tail) = ⟨a, nA, b, c⟩ :=
  ⟨extract_template_noEdu a b c tail ha hb hc,
   extract_template_noExp a b c tail ha hb hc,
   extract_template_noSkills a b c tail ha hb hc⟩

/-- Witness for C5 at score 8/10 with percentages 85 and 70. -/
theorem c5_two_of_three_percentages_witness :
    extractFitScores (fitTemplateNoEdu "8".data "85".data "70".data "- Point 1\n".data) =
      ⟨"8".data, "85".data, "70".data, nA⟩ ∧
    extractFitScores (fitTemplateNoExp "8".data "85".data "70".data "- Point 1\n".data) =
      ⟨"8".data, "85".data, nA, "70".data⟩ ∧
    extractFitScores (fitTemplateNoSkills "8".data "85".data "70".data "- Point 1\n".data) =
      ⟨"8".data, nA, "85".data, "70".data⟩ :=
  c5_two_of_three_percentages "8".data "85".data "70".data "- Point 1\n".data
    (by decide) (by decide) (by decide)
